import Mathlib

/-!
Verification of the munet CLI control plane (src/munet/cli.py).

This file gives a shallow embedding of the command-dispatch code of
src/munet/cli.py and proves properties about it.  Pure string processing
(tokenising, prefix splitting, replacement) is embedded as structurally
recursive Lean functions over character lists so that every definition is
executable by the kernel.  Stateful behaviour (writes to the output sink,
process launches, the socket server loop, terminal-mode changes) is embedded
as functions producing explicit lists of write events and execution events.
-/

namespace Munet

/-! ## Python string primitives

These model the Python `str` operations the CLI code uses, working on the
character list underlying a Lean `String` so that everything reduces in the
kernel.
-/

/-- Model of Python `str.split()` (split on whitespace runs, dropping empty
tokens), as used at cli.py:96 (`cmd.split()`) and cli.py:227 (`nline.split()`). -/
def pySplitAux : List Char → List Char → List String
  | [], acc => if acc.isEmpty then [] else [String.mk acc.reverse]
  | c :: cs, acc =>
    if c.isWhitespace then
      if acc.isEmpty then pySplitAux cs []
      else String.mk acc.reverse :: pySplitAux cs []
    else pySplitAux cs (c :: acc)

def pySplit (s : String) : List String := pySplitAux s.data []

/-- Model of Python `str.strip()` (cli.py:204, cli.py:340): drop leading and
trailing whitespace. -/
def pyStrip (s : String) : String :=
  String.mk (((s.data.dropWhile Char.isWhitespace).reverse.dropWhile
      Char.isWhitespace).reverse)

/-- Model of Python `str.replace(pat, rep)` (replace every non-overlapping
occurrence, scanning left to right).  Fuel-based structural recursion; the
initial fuel `s.length` is enough because every step consumes at least one
character of the subject. -/
def pyReplaceAux (pat rep : List Char) : Nat → List Char → List Char
  | _, [] => []
  | 0, l => l
  | fuel + 1, c :: rest =>
    if ¬pat.isEmpty ∧ pat.isPrefixOf (c :: rest) then
      rep ++ pyReplaceAux pat rep fuel ((c :: rest).drop pat.length)
    else
      c :: pyReplaceAux pat rep fuel rest

def pyReplace (s pat rep : String) : String :=
  String.mk (pyReplaceAux pat.data rep.data s.data.length s.data)

/-- Model of Python `str.format(u)` for the exec-format templates of cli.py
(e.g. the default template at cli.py:152), whose only placeholder form is
an empty brace pair filled with the single user-command argument. -/
def pyFormat1 (fmt arg : String) : String := pyReplace fmt "\x7b\x7d" arg

/-- Model of Python `" ".join(l)` (cli.py:105, cli.py:218, cli.py:232). -/
def joinSpace : List String → String
  | [] => ""
  | [x] => x
  | x :: y :: xs => x ++ " " ++ joinSpace (y :: xs)

/-- Model of Python `", ".join(l)` (cli.py:164). -/
def joinComma : List String → String
  | [] => ""
  | [x] => x
  | x :: y :: xs => x ++ ", " ++ joinComma (y :: xs)

/-- Code-point order on strings, as Python compares `str` values in
`sorted(...)`. -/
def charListLe : List Char → List Char → Bool
  | [], _ => true
  | _ :: _, [] => false
  | a :: as, b :: bs =>
    if a.val < b.val then true
    else if b.val < a.val then false
    else charListLe as bs

def strLe (a b : String) : Bool := charListLe a.data b.data

/-- Insertion sort on strings in code-point order: model of Python
`sorted(...)` on a list of strings (cli.py:103, 139, 218, 229). -/
def insertSorted (x : String) : List String → List String
  | [] => [x]
  | y :: ys => if strLe x y then x :: y :: ys else y :: insertSorted x ys

def sortStrings : List String → List String
  | [] => []
  | x :: xs => insertSorted x (sortStrings xs)

/-! ## Data model

`Unet` models the session object consumed by cli.py: the host map
`unet.hosts`, the instance id `unet.instance`, and the two command
registries `unet.cli_run_cmds` / `unet.cli_in_window_cmds`.  A host
capability is modelled by its observable behaviour: the result of
`async_cmd_status` / `async_cmd_status_host` on a given shell command,
the transcript a pty session would relay, and whether `run_in_window`
raises.
-/

/-- Result of a host's captured execution (`async_cmd_status` /
`async_cmd_status_host`): either a normal completion carrying
(exit status, combined stdout with stderr folded in, stderr slot), or a
raised exception.  `asyncio.gather(..., return_exceptions=True)` at
cli.py:190 turns a raised exception into an exception value in the result
list instead of cancelling the sibling awaits. -/
inductive ExecResult
  | ok (rc : Int) (out : String) (err : String)
  | exc (msg : String)
deriving DecidableEq

def ExecResult.isOk : ExecResult → Bool
  | .ok _ _ _ => true
  | .exc _ => false

/-- A host capability (external collaborator; consumed at cli.py:67,
185-187, 239). -/
structure HostCap where
  run : String → ExecResult
  runHost : String → ExecResult
  ptyOut : String → String
  winFault : Option String

/-- A registered run-command descriptor:
`unet.cli_run_cmds[cmd] = (cmdfmt, cmdhelp, (execfmt, on_host, interactive))`
(cli.py:414). -/
structure RunCmd where
  fmtStr : String
  helpStr : String
  execfmt : String
  onHost : Bool
  withPty : Bool
deriving DecidableEq

/-- A registered window-command descriptor:
`unet.cli_in_window_cmds[cmd] = (cmdfmt, cmdhelp, (shell, kwargs))`
(cli.py:393).  The shell program together with its opaque kwargs is
modelled as one string. -/
structure WinCmd where
  fmtStr : String
  helpStr : String
  shell : String
deriving DecidableEq

/-- The session object.  `unet.cli_run_cmds` is a Python dict that may hold
a `None` key (the default command, cli.py:249); the string-keyed entries are
`runCmds` and the `None` entry is `defaultRun`. -/
structure Unet where
  hosts : List (String × HostCap)
  inst : String
  runCmds : List (String × RunCmd)
  defaultRun : Option RunCmd
  winCmds : List (String × WinCmd)

def hostNames (u : Unet) : List String := u.hosts.map Prod.fst

/-- Python `e in unet.hosts` (dict key membership, cli.py:99, 163, 230). -/
def isHostTok (u : Unet) (e : String) : Bool := (u.hosts.lookup e).isSome

/-- Python `sorted(unet.hosts.keys())` (cli.py:103, 218, 229). -/
def sortedHostNames (u : Unet) : List String := sortStrings (hostNames u)

/-- Python `unet.hosts[h]`; the fallback capability models the `KeyError`
a missing key would raise (the theorems below show the fallback is never
reached on the paths the code takes). -/
def getHost (u : Unet) (h : String) : HostCap :=
  (u.hosts.lookup h).getD
    ⟨fun _ => .exc "KeyError", fun _ => .exc "KeyError", fun _ => "", none⟩

/-! ## host_cmd_split (cli.py:95-106) -/

/-- The Python `for i, e in enumerate(csplit): if e not in unet.hosts: break`
loop of cli.py:97-100, tracking the loop variable `i` exactly: `last` is the
value `i` holds if the iteration ends here (initially 0, then the previous
element's index), `cur` is the index of the element being examined. -/
def pyLoopIdxGo (p : String → Bool) : Nat → Nat → List String → Nat
  | last, _, [] => last
  | _, cur, e :: rest => if p e then pyLoopIdxGo p cur (cur + 1) rest else cur

/-- `host_cmd_split(unet, cmd)` (cli.py:95-106): split the line, find the
break index of the host-name scan, take that prefix as the host list
(defaulting to all hosts, sorted, when empty), and join the remainder. -/
def host_cmd_split (u : Unet) (cmd : String) : List String × String :=
  let csplit := pySplit cmd
  let i := pyLoopIdxGo (isHostTok u) 0 0 csplit
  let hosts := csplit.take i
  let hosts := if hosts.isEmpty then sortedHostNames u else hosts
  (hosts, joinSpace (csplit.drop i))

/-- The maximal-prefix reading of the host split: targets are the maximal
prefix of tokens that are all valid host names (defaulting to all hosts when
that prefix is empty) and the residual is the join of the rest.  Stated from
the specification's words, to be compared with `host_cmd_split` above. -/
def host_cmd_split_claimed (u : Unet) (cmd : String) : List String × String :=
  let csplit := pySplit cmd
  let pre := csplit.takeWhile (isHostTok u)
  (if pre.isEmpty then sortedHostNames u else pre,
   joinSpace (csplit.dropWhile (isHostTok u)))

/-- What `host_cmd_split` actually computes, in closed form: the target list
is the maximal prefix of tokens that are valid host names, except that when
every token of the line is a valid host name the prefix stops before the
last token (which becomes the residual command); an empty prefix defaults to
all known hosts, sorted. -/
def host_cmd_split_amended (u : Unet) (cmd : String) : List String × String :=
  let csplit := pySplit cmd
  let pre := csplit.takeWhile (isHostTok u)
  if pre.length = csplit.length then
    (if csplit.dropLast.isEmpty then sortedHostNames u else csplit.dropLast,
     joinSpace (csplit.drop (csplit.length - 1)))
  else
    (if pre.isEmpty then sortedHostNames u else pre,
     joinSpace (csplit.drop pre.length))

/-! ## Execution events and run_command (cli.py:151-199) -/

/-- Observable execution operations invoked by the dispatcher on hosts:
captured runs (cli.py:185-188), pty spawns (cli.py:175), window launches
(cli.py:239) and the secondary-CLI window bootstrap (cli.py:220). -/
inductive Event
  | captured (host cmd : String)
  | capturedHost (host cmd : String)
  | spawnPty (host cmd : String)
  | winLaunch (host shell : String)
  | secondaryCli
deriving DecidableEq

/-- Outcome of one `run_command` call: the sequence of `outf.write` calls,
the execution events, and the exception it raises, if any. -/
structure RCRes where
  writes : List String
  events : List Event
  exc : Option String
deriving DecidableEq

/-- cli.py:164: `"%% Unknown host[s]: %s\n" % ", ".join(unknowns)` (the
doubled percent renders as a single percent character). -/
def unknownHostMsgRC (unknowns : List String) : String :=
  "% Unknown host[s]: " ++ joinComma unknowns ++ "\n"

def hostBegin (h : String) : String := "------ Host: " ++ h ++ " ------\n"

def hostEnd (h : String) : String := "------- End: " ++ h ++ " ------\n"

/-- cli.py:196: `"*** non-zero exit status: %d\n" % rc`. -/
def nonZeroMsg (rc : Int) : String :=
  "*** non-zero exit status: " ++ toString rc ++ "\n"

def interactiveErr : String :=
  "% Error: interactive command must be run from primary CLI\n"

/-- cli.py:167: `execfmt.format(ucmd).replace("%INSTANCE%", unet.instance)`. -/
def fmtUcmd (u : Unet) (execfmt ucmd : String) : String :=
  pyReplace (pyFormat1 execfmt ucmd) "%INSTANCE%" u.inst

/-- cli.py:172/183: `ucmd.replace("%NAME%", host)`. -/
def shcmdFor (base h : String) : String := pyReplace base "%NAME%" h

/-- Python `len(hosts) > 1` (cli.py:173, 176, 193, 198). -/
def manyOf (hosts : List String) : Bool := decide (1 < hosts.length)

/-- The reporting loop of cli.py:191-199, applied to the list of per-host
results collected by `asyncio.gather(..., return_exceptions=True)`.  Each
normal result `(rc, o, _)` produces (in order): the begin bracket when more
than one host is targeted, the non-zero exit diagnostic when `rc` is
non-zero, the captured output, and the end bracket.  An exception value in
the result list makes the tuple unpacking at cli.py:192 raise `TypeError`,
which stops reporting for that and all later hosts (earlier writes stand). -/
def reportResults (many : Bool) : List (String × ExecResult) → List String × Option String
  | [] => ([], none)
  | (_, .exc _) :: _ =>
    ([], some "TypeError: cannot unpack non-iterable exception object")
  | (h, .ok rc o _) :: rest =>
    let blk := (if many then [hostBegin h] else []) ++
               (if rc ≠ 0 then [nonZeroMsg rc] else []) ++
               [o] ++
               (if many then [hostEnd h] else [])
    let r := reportResults many rest
    (blk ++ r.1, r.2)

/-- `run_command(unet, outf, line, execfmt, on_host, with_pty)`
(cli.py:151-199).  The pty transcript a `spawn` call relays to the sink
(including the initial carriage return written at cli.py:76) is abstracted
by the host capability's `ptyOut`. -/
def run_command (u : Unet) (line execfmt : String) (onHost withPty : Bool) : RCRes :=
  let hosts := (host_cmd_split u line).1
  let ucmd0 := (host_cmd_split u line).2
  let unknowns := hosts.filter (fun x => !isHostTok u x)
  if ¬unknowns.isEmpty then
    ⟨[unknownHostMsgRC unknowns], [], none⟩
  else
    let base := fmtUcmd u execfmt ucmd0
    if withPty then
      let per := hosts.map (fun h =>
        ((if manyOf hosts then [hostBegin h] else []) ++
         [(getHost u h).ptyOut (shcmdFor base h)] ++
         (if manyOf hosts then [hostEnd h] else []),
         Event.spawnPty h (shcmdFor base h)))
      ⟨(per.map Prod.fst).flatten ++ ["\n"], per.map Prod.snd, none⟩
    else
      let evs := hosts.map (fun h =>
        if onHost then Event.capturedHost h (shcmdFor base h)
        else Event.captured h (shcmdFor base h))
      let results := hosts.map (fun h =>
        (h, if onHost then (getHost u h).runHost (shcmdFor base h)
            else (getHost u h).run (shcmdFor base h)))
      let r := reportResults (manyOf hosts) results
      ⟨r.1, evs, r.2⟩

/-! Abbreviations for the intermediate values of a captured `run_command`
call, used to state its properties. -/

def rcHosts (u : Unet) (line : String) : List String := (host_cmd_split u line).1

def rcBase (u : Unet) (line execfmt : String) : String :=
  fmtUcmd u execfmt (host_cmd_split u line).2

def rcShcmd (u : Unet) (line execfmt h : String) : String :=
  shcmdFor (rcBase u line execfmt) h

def rcResult (u : Unet) (line execfmt : String) (onHost : Bool) (h : String) : ExecResult :=
  if onHost then (getHost u h).runHost (rcShcmd u line execfmt h)
  else (getHost u h).run (rcShcmd u line execfmt h)

def rcEvent (onHost : Bool) (h c : String) : Event :=
  if onHost then Event.capturedHost h c else Event.captured h c

/-- The writes the reporting loop emits for one host with a normal result. -/
def okBlock (many : Bool) (h : String) : ExecResult → List String
  | .ok rc o _ =>
    (if many then [hostBegin h] else []) ++
    (if rc ≠ 0 then [nonZeroMsg rc] else []) ++
    [o] ++
    (if many then [hostEnd h] else [])
  | .exc _ => []

/-- The bracket-free part of one host's report: non-zero exit diagnostic
(when applicable) followed by the captured output. -/
def innerBlock (u : Unet) (line execfmt : String) (onHost : Bool) (h : String) : List String :=
  match rcResult u line execfmt onHost h with
  | .ok rc o _ => (if rc ≠ 0 then [nonZeroMsg rc] else []) ++ [o]
  | .exc _ => []

/-! ## doline, the dispatcher (cli.py:202-258) -/

instance : DecidableEq (Except String Bool) := fun x y =>
  match x, y with
  | .ok a, .ok b => if h : a = b then isTrue (by rw [h]) else isFalse (by simp [h])
  | .error a, .error b => if h : a = b then isTrue (by rw [h]) else isFalse (by simp [h])
  | .ok _, .error _ => isFalse (by simp)
  | .error _, .ok _ => isFalse (by simp)

/-- Outcome of one `doline` call: writes to the sink, execution events, and
either the returned continue flag or a raised exception. -/
structure DoRes where
  writes : List String
  events : List Event
  outcome : Except String Bool
deriving DecidableEq

/-- The regex match of cli.py:205 applied to the already-stripped line:
`None` for an empty line, otherwise the first whitespace-delimited token and
the remainder after the following whitespace run. -/
def pyParseStripped (l : String) : Option (String × String) :=
  if l.data.isEmpty then none
  else some (String.mk (l.data.takeWhile (fun c => !c.isWhitespace)),
             String.mk ((l.data.dropWhile (fun c => !c.isWhitespace)).dropWhile
               Char.isWhitespace))

def builtinNames : List String := ["q", "quit", "help", "h", "hosts", "cli"]

def helpHeader : String :=
  "\nBasic Commands:\n  cli   :: open a secondary CLI window\n  help  :: this help\n  hosts :: list hosts\n  quit  :: quit the cli\n\nCommands:\n"

def helpLineFor (u : Unet) (c : String) : String :=
  match u.runCmds.lookup c with
  | some v => "  " ++ v.fmtStr ++ "\t:: " ++ v.helpStr ++ "\n"
  | none =>
    match u.winCmds.lookup c with
    | some v => "  " ++ v.fmtStr ++ "\t:: " ++ v.helpStr ++ "\n"
    | none => ""

/-- `make_help_str(unet)` (cli.py:130-148).  `keys` is
`sorted(list(cli_run_cmds) + list(cli_in_window_cmds))`; when the default
(`None`-keyed) run-command is registered alongside at least one string key,
Python's `sorted` raises `TypeError` comparing `None` with `str`; with only
the `None` key present, `sorted([None])` succeeds and the default command's
entry is printed. -/
def make_help_str (u : Unet) : Except String String :=
  let strKeys := u.runCmds.map Prod.fst ++ u.winCmds.map Prod.fst
  match u.defaultRun with
  | some rc =>
    if strKeys.isEmpty then
      .ok (helpHeader ++ "  " ++ rc.fmtStr ++ "\t:: " ++ rc.helpStr ++ "\n" ++ "\n")
    else .error "TypeError: '<' not supported between instances of NoneType and str"
  | none =>
    .ok (helpHeader ++ String.join ((sortStrings strKeys).map (helpLineFor u)) ++ "\n")

def hostsMsg (u : Unet) : String :=
  "% Hosts:\t" ++ joinSpace (sortedHostNames u) ++ "\n"

/-- The window-launch loop of cli.py:236-242: launch each resolved host's
window in order; the first raising `run_in_window` call aborts the loop and
the surrounding handler writes the inline error and returns continue. -/
def winLoop (u : Unet) (shell : String) : List String → List String × List Event
  | [] => ([], [])
  | h :: rest =>
    match (getHost u h).winFault with
    | some m => (["% Error: " ++ m ++ "\n"], [Event.winLaunch h shell])
    | none =>
      let r := winLoop u shell rest
      (r.1, Event.winLaunch h shell :: r.2)

/-- The window-command branch of `doline` (cli.py:226-242). -/
def dolineWindow (u : Unet) (cmd nline : String) : DoRes :=
  let args := pySplit nline
  let args := if args = ["*"] then sortedHostNames u else args
  let unknowns := args.filter (fun x => !isHostTok u x)
  if ¬unknowns.isEmpty then
    ⟨["% Unknown host[s]: " ++ joinSpace unknowns ++ "\n"], [], .ok true⟩
  else
    let wc := (u.winCmds.lookup cmd).getD ⟨"", "", ""⟩
    let r := winLoop u wc.shell args
    ⟨r.1, r.2, .ok true⟩

def liftRC (r : RCRes) : DoRes :=
  ⟨r.writes, r.events,
   match r.exc with
   | none => .ok true
   | some m => .error m⟩

/-- The run-command resolution of `doline`: the registered entry for the
typed name if present, otherwise the default (`None`-keyed) entry
(cli.py:243, 249). -/
def resolvedRun (u : Unet) (cmd : String) : Option RunCmd :=
  match u.runCmds.lookup cmd with
  | some rc => some rc
  | none => u.defaultRun

/-- `doline(unet, line, outf, background, notty)` (cli.py:202-258).  The
`background` flag is only forwarded to `remote_cli`, which the `cli` builtin
triggers (modelled by the `secondaryCli` event; `remote_cli` catches its own
exceptions at cli.py:374-375 and writes nothing to the sink). -/
def doline (u : Unet) (line0 : String) (notty : Bool) : DoRes :=
  let line := pyStrip line0
  match pyParseStripped line with
  | none => ⟨[], [], .ok true⟩
  | some (cmd, nline) =>
    if cmd = "q" ∨ cmd = "quit" then ⟨[], [], .ok false⟩
    else if cmd = "help" then
      match make_help_str u with
      | .ok s => ⟨[s], [], .ok true⟩
      | .error m => ⟨[], [], .error m⟩
    else if cmd = "h" ∨ cmd = "hosts" then ⟨[hostsMsg u], [], .ok true⟩
    else if cmd = "cli" then ⟨[], [.secondaryCli], .ok true⟩
    else if (u.winCmds.lookup cmd).isSome then dolineWindow u cmd nline
    else
      match u.runCmds.lookup cmd with
      | some rc =>
        if rc.withPty = true ∧ notty = true then ⟨[interactiveErr], [], .ok true⟩
        else liftRC (run_command u nline rc.execfmt rc.onHost rc.withPty)
      | none =>
        match u.defaultRun with
        | some rc =>
          if rc.withPty = true ∧ notty = true then ⟨[interactiveErr], [], .ok true⟩
          else liftRC (run_command u line rc.execfmt rc.onHost rc.withPty)
        | none => ⟨["% Unknown command: " ++ line ++ "\n"], [], .ok true⟩

/-- The builtin branches of `doline` (cli.py:212-225) in isolation: defined
solely from those lines, never consulting the registries for dispatch. -/
def builtinEval (u : Unet) (cmd : String) : DoRes :=
  if cmd = "q" ∨ cmd = "quit" then ⟨[], [], .ok false⟩
  else if cmd = "help" then
    match make_help_str u with
    | .ok s => ⟨[s], [], .ok true⟩
    | .error m => ⟨[], [], .error m⟩
  else if cmd = "h" ∨ cmd = "hosts" then ⟨[hostsMsg u], [], .ok true⟩
  else if cmd = "cli" then ⟨[], [.secondaryCli], .ok true⟩
  else ⟨[], [], .ok true⟩

/-! ## Control socket server (cli.py:330-350) and sentinel framing -/

/-- One write on a socket connection: a chunk of dispatcher sink output, or
the `ENDMARKER` sentinel write of cli.py:349. -/
inductive SWrite
  | chunk (s : String)
  | endmark
deriving DecidableEq

/-- `cli_client_connected` (cli.py:330-350) viewed as a function from the
newline-terminated lines received on a connection (an exhausted list models
the peer closing) to the sequence of writes actually transmitted on the
socket.  Each line is stripped and dispatched with `notty=True`, passing the
asyncio `StreamWriter` itself as the sink (cli.py:345).  Every sink write
`doline` performs is a `str`, but the stream transport only accepts
bytes-like data and raises `TypeError` on a `str` (the commented-out
`writef` shim at cli.py:342-343 would have encoded; it is not used), so the
first sink write of a dispatch aborts that dispatch: nothing is transmitted
for it and the exception kills the handler.  Hence: a dispatch with no sink
writes that returns truthy is followed by the `ENDMARKER` write of
cli.py:349 (a bytes literal, which the transport accepts) and the loop
continues; a dispatch with no sink writes that returns falsy (`quit`/`q`)
makes the handler return with nothing written for that line; a dispatch
that raises before its first write likewise transmits nothing; and a
dispatch that attempts any sink write transmits nothing and ends the
connection.  Whether a dispatch attempts a write, and everything that
precedes its first write attempt, is independent of the sink's behaviour,
so `doline`'s write list and outcome determine the case. -/
def serverRun (u : Unet) : List String → List SWrite
  | [] => []
  | l :: ls =>
    let r := doline u (pyStrip l) true
    if r.writes.isEmpty then
      match r.outcome with
      | .ok true => SWrite.endmark :: serverRun u ls
      | .ok false => []
      | .error _ => []
    else []

/-- Whether dispatching this line on a socket session transmits a (sentinel
only) framed response and continues: the dispatch performs no sink write —
so no `TypeError` from passing a `str` to the bytes-only writer — and
returns truthy. -/
def zeroWriteCont (u : Unet) (l : String) : Bool :=
  (doline u (pyStrip l) true).writes.isEmpty &&
  (match (doline u (pyStrip l) true).outcome with
   | .ok true => true
   | _ => false)

/-- `ENDMARKER = b"\x00END\x00"` (cli.py:39), as its byte values. -/
def ENDMARKER : List Nat := [0, 69, 78, 68, 0]

/-- `bendswith(b, sentinel)` (cli.py:281-283): the accumulated receive
buffer ends with the sentinel. -/
def bendswith (b sentinel : List Nat) : Bool :=
  decide (sentinel.length ≤ b.length) &&
  decide (b.drop (b.length - sentinel.length) = sentinel)

/-- cli.py:294: `rb = rb[: -len(ENDMARKER)]`. -/
def clientStripMarker (rb : List Nat) : List Nat :=
  rb.take (rb.length - ENDMARKER.length)

/-- The client's collect loop (cli.py:286-291): starting from buffer `rb`,
stop as soon as the buffer ends with `ENDMARKER`; otherwise consume the next
received chunk (an exhausted or empty chunk models the peer closing, on
which the client returns with no framed response). -/
def clientCollect (rb : List Nat) : List (List Nat) → Option (List Nat)
  | [] => if bendswith rb ENDMARKER then some rb else none
  | c :: cs =>
    if bendswith rb ENDMARKER then some rb
    else if c.isEmpty then none else clientCollect (rb ++ c) cs

/-- The byte stream of a connection's transmitted writes.  `enc` is the
encoding a sink-output chunk would have on the wire; it is a parameter
because no chunk is ever transmitted — the dispatcher's `str` writes raise
before reaching the transport — so the stream consists of sentinels only. -/
def serverBytes (enc : String → List Nat) (u : Unet) (lines : List String) : List Nat :=
  ((serverRun u lines).map (fun w =>
    match w with
    | SWrite.chunk s => enc s
    | SWrite.endmark => ENDMARKER)).flatten

/-! ## The PTY bridge spawn (cli.py:58-92) -/

/-- Terminal-discipline operations performed by `spawn`:
`termios.tcgetattr` (save), `tty.setraw` (enter raw mode),
`termios.tcsetattr(..., TCSADRAIN, v)` (restore saved settings `v`). -/
inductive TermEvent
  | tcgetattr
  | setraw
  | tcsetattr (v : Nat)
deriving DecidableEq

/-- `spawn` (cli.py:58-92) viewed through its terminal-discipline effect.
`init` is the terminal's discipline settings at entry; `body` is the outcome
of the pty allocation, child spawn and relay loop of cli.py:62-88, which
performs no termios operations and may either return normally or raise.
When stdin is a tty the settings are saved and raw mode entered before the
`try` block (cli.py:59-61) and the `finally` block restores the saved
settings (cli.py:89-92) — it runs both on normal completion and on an
exception, which then propagates (the body's outcome is returned either
way).  When stdin is not a tty, no termios operation is performed. -/
def spawn (isatty : Bool) (init : Nat) (body : Except String Unit) :
    Except String Unit × List TermEvent :=
  let pre : List TermEvent := if isatty then [.tcgetattr, .setraw] else []
  let fin : List TermEvent := if isatty then [.tcsetattr init] else []
  (body, pre ++ fin)

/-- Semantics of a terminal-event trace on the discipline state: `rawOf`
is the (arbitrary) effect of `tty.setraw` on the settings. -/
def applyTermEvents (rawOf : Nat → Nat) : Nat → List TermEvent → Nat
  | s, [] => s
  | s, .tcgetattr :: r => applyTermEvents rawOf s r
  | s, .setraw :: r => applyTermEvents rawOf (rawOf s) r
  | _, .tcsetattr v :: r => applyTermEvents rawOf v r

/-! ## Concrete session instances used by counterexamples and witnesses -/

def demoCap (rc : Int) (out : String) : HostCap :=
  ⟨fun _ => .ok rc out "", fun _ => .ok rc out "", fun _ => "", none⟩

def demoUnet1 : Unet := ⟨[("r1", demoCap 0 "hi\n")], "inst0", [], none, []⟩

def demoUnet2 : Unet :=
  ⟨[("r1", demoCap 1 "x\n"), ("r2", demoCap 1 "y\n")], "inst0", [], none, []⟩

def demoUnet4 : Unet :=
  ⟨[("r1", demoCap 0 "")], "inst0",
   [("vtysh", ⟨"vtysh", "open a vtysh shell", "vtysh", false, true⟩)], none, []⟩

def demoUnet5 : Unet :=
  ⟨[("r1", demoCap 0 "")], "inst0",
   [("hosts", ⟨"hosts", "shadowed entry", "echo shadowed", false, false⟩)], none, []⟩

def demoUnet6 : Unet :=
  ⟨[("r1", demoCap 0 "")], "inst0", [], none,
   [("wireshark", ⟨"wireshark", "open wireshark", "wireshark-gui"⟩)]⟩

def demoFmt : String := "bash -c '\x7b\x7d'"

def demoEnc (s : String) : List Nat := s.data.map Char.toNat

/-! ## Helper lemmas -/

theorem take_takeWhile_length {α : Type} (p : α → Bool) :
    ∀ l : List α, l.take (l.takeWhile p).length = l.takeWhile p := by
  intro l
  induction l with
  | nil => simp
  | cons a m ih =>
    by_cases hp : p a = true
    · simp [List.takeWhile_cons, hp, ih]
    · simp [List.takeWhile_cons, hp]

theorem pyLoopIdxGo_break (p : String → Bool) :
    ∀ (l : List String) (last cur : Nat),
      (l.takeWhile p).length < l.length →
      pyLoopIdxGo p last cur l = cur + (l.takeWhile p).length := by
  intro l
  induction l with
  | nil => intro last cur h; simp at h
  | cons e rest ih =>
    intro last cur h
    by_cases hp : p e = true
    · have h' : (rest.takeWhile p).length < rest.length := by
        rw [List.takeWhile_cons, if_pos hp] at h
        simpa using h
      rw [pyLoopIdxGo, if_pos hp, ih cur (cur + 1) h', List.takeWhile_cons, if_pos hp]
      simp
      omega
    · rw [pyLoopIdxGo, if_neg hp, List.takeWhile_cons, if_neg hp]
      simp

theorem pyLoopIdxGo_all (p : String → Bool) :
    ∀ (l : List String) (last cur : Nat), l.takeWhile p = l →
      pyLoopIdxGo p last cur l = if l.isEmpty then last else cur + (l.length - 1) := by
  intro l
  induction l with
  | nil => intro last cur _; simp [pyLoopIdxGo]
  | cons e rest ih =>
    intro last cur h
    have hp : p e = true := by
      by_contra hc
      rw [List.takeWhile_cons, if_neg hc] at h
      simp at h
    have h' : rest.takeWhile p = rest := by
      rw [List.takeWhile_cons, if_pos hp] at h
      simpa using h
    rw [pyLoopIdxGo, if_pos hp, ih cur (cur + 1) h']
    cases rest with
    | nil => simp
    | cons f fs =>
      simp
      omega

theorem host_cmd_split_eq_amended (u : Unet) (cmd : String) :
    host_cmd_split u cmd = host_cmd_split_amended u cmd := by
  by_cases hall :
      ((pySplit cmd).takeWhile (isHostTok u)).length = (pySplit cmd).length
  · have heq : (pySplit cmd).takeWhile (isHostTok u) = pySplit cmd :=
      (List.takeWhile_prefix _).eq_of_length hall
    simp only [host_cmd_split, host_cmd_split_amended, if_pos hall]
    rw [pyLoopIdxGo_all _ _ _ _ heq]
    have hidx :
        (if (pySplit cmd).isEmpty then 0 else 0 + ((pySplit cmd).length - 1))
          = (pySplit cmd).length - 1 := by
      cases pySplit cmd <;> simp
    rw [hidx, ← List.dropLast_eq_take]
  · have hlt : ((pySplit cmd).takeWhile (isHostTok u)).length < (pySplit cmd).length :=
      lt_of_le_of_ne (List.takeWhile_prefix _).length_le hall
    simp only [host_cmd_split, host_cmd_split_amended, if_neg hall]
    rw [pyLoopIdxGo_break _ _ _ _ hlt]
    simp only [Nat.zero_add]
    rw [take_takeWhile_length]

theorem mem_insertSorted (x y : String) (l : List String) :
    y ∈ insertSorted x l ↔ y = x ∨ y ∈ l := by
  induction l with
  | nil => simp [insertSorted]
  | cons a m ih =>
    by_cases h : strLe x a = true
    · simp [insertSorted, h]
    · simp [insertSorted, h, ih]
      tauto

theorem mem_sortStrings (y : String) (l : List String) :
    y ∈ sortStrings l ↔ y ∈ l := by
  induction l with
  | nil => simp [sortStrings]
  | cons a m ih => simp [sortStrings, mem_insertSorted, ih]

theorem lookup_isSome_of_mem {β : Type} (x : String) (l : List (String × β))
    (hx : x ∈ l.map Prod.fst) : (l.lookup x).isSome = true := by
  induction l with
  | nil => simp at hx
  | cons p rest ih =>
    obtain ⟨k, v⟩ := p
    rw [List.map_cons, List.mem_cons] at hx
    by_cases he : (x == k) = true
    · simp [List.lookup, he]
    · rcases hx with hx | hx
      · simp at hx
        exact absurd (by simp [hx] : (x == k) = true) he
      · simp [List.lookup, he, ih hx]

theorem isHostTok_of_mem_names (u : Unet) (x : String) (hx : x ∈ hostNames u) :
    isHostTok u x = true :=
  lookup_isSome_of_mem x u.hosts hx

/-- Every host name `host_cmd_split` returns is a key of the session's host
map; hence the unknown-host rejection at cli.py:163-165 can never fire. -/
theorem host_cmd_split_mem_names (u : Unet) (line x : String)
    (hx : x ∈ (host_cmd_split u line).1) : isHostTok u x = true := by
  rw [host_cmd_split_eq_amended] at hx
  simp only [host_cmd_split_amended] at hx
  by_cases hall :
      ((pySplit line).takeWhile (isHostTok u)).length = (pySplit line).length
  · rw [if_pos hall] at hx
    have heq : (pySplit line).takeWhile (isHostTok u) = pySplit line :=
      (List.takeWhile_prefix _).eq_of_length hall
    by_cases he : (pySplit line).dropLast.isEmpty = true
    · rw [if_pos he] at hx
      exact isHostTok_of_mem_names u x ((mem_sortStrings x (hostNames u)).mp hx)
    · rw [if_neg he] at hx
      have hx2 : x ∈ pySplit line := by
        rw [List.dropLast_eq_take] at hx
        exact List.take_subset _ _ hx
      rw [← heq] at hx2
      exact List.mem_takeWhile_imp hx2
  · rw [if_neg hall] at hx
    by_cases he : ((pySplit line).takeWhile (isHostTok u)).isEmpty = true
    · rw [if_pos he] at hx
      exact isHostTok_of_mem_names u x ((mem_sortStrings x (hostNames u)).mp hx)
    · rw [if_neg he] at hx
      exact List.mem_takeWhile_imp hx

theorem host_cmd_split_no_unknowns (u : Unet) (line : String) :
    (host_cmd_split u line).1.filter (fun x => !isHostTok u x) = [] := by
  rw [List.filter_eq_nil_iff]
  intro x hx
  simp [host_cmd_split_mem_names u line x hx]

/-- When every per-host result is a normal completion, the reporting loop of
cli.py:191-199 emits exactly one block per host, in target order, and raises
nothing. -/
theorem reportResults_ok (many : Bool) :
    ∀ rs : List (String × ExecResult), (∀ p ∈ rs, p.2.isOk = true) →
      reportResults many rs = ((rs.map (fun p => okBlock many p.1 p.2)).flatten, none) := by
  intro rs
  induction rs with
  | nil => intro _; simp [reportResults]
  | cons p rest ih =>
    intro hall
    obtain ⟨k, r⟩ := p
    cases r with
    | ok rc o e =>
      have hr := ih (fun q hq => hall q (List.mem_cons_of_mem _ hq))
      simp [reportResults, okBlock, hr]
    | exc m =>
      have := hall ⟨k, .exc m⟩ (List.mem_cons_self _ _)
      simp [ExecResult.isOk] at this

/-- Captured (non-pty) `run_command` in closed form: the unknown-host
rejection is unreachable, one execution is launched per resolved host
regardless of the results, and the writes and raised exception are those of
the reporting loop over the gathered results. -/
theorem run_command_captured (u : Unet) (line execfmt : String) (onHost : Bool) :
    run_command u line execfmt onHost false =
      ⟨(reportResults (manyOf (rcHosts u line))
          ((rcHosts u line).map (fun h => (h, rcResult u line execfmt onHost h)))).1,
       (rcHosts u line).map (fun h => rcEvent onHost h (rcShcmd u line execfmt h)),
       (reportResults (manyOf (rcHosts u line))
          ((rcHosts u line).map (fun h => (h, rcResult u line execfmt onHost h)))).2⟩ := by
  simp only [run_command, host_cmd_split_no_unknowns u line]
  simp [rcHosts, rcResult, rcShcmd, rcBase, rcEvent]

/-- The socket connection's transmitted write sequence in closed form: one
sentinel per leading line whose dispatch performs no sink write and signals
continue, and nothing else — the first line that attempts a sink write
(`TypeError`: `str` to the bytes-only writer), returns stop, or raises,
ends the connection with nothing transmitted for it. -/
theorem serverRun_eq_sentinels (u : Unet) (lines : List String) :
    serverRun u lines
      = (lines.takeWhile (zeroWriteCont u)).map (fun _ => SWrite.endmark) := by
  induction lines with
  | nil => rfl
  | cons l ls ih =>
    by_cases hw : (doline u (pyStrip l) true).writes.isEmpty = true
    · cases ho : (doline u (pyStrip l) true).outcome with
      | ok b =>
        cases b
        · simp [serverRun, zeroWriteCont, hw, ho, List.takeWhile_cons]
        · simp [serverRun, zeroWriteCont, hw, ho, List.takeWhile_cons, ih]
      | error m => simp [serverRun, zeroWriteCont, hw, ho, List.takeWhile_cons]
    · simp [serverRun, zeroWriteCont, hw, List.takeWhile_cons]

/-! ## Claim theorems -/

/-- C1, counterexample: on the session with single host `r1`, the input line
`badhost echo hi` (with `badhost` unknown) does NOT produce an unknown-host
diagnostic and DOES invoke a captured execution: `host_cmd_split` defaults
the empty valid prefix to all known hosts, so `run_command` runs the whole
line on `r1` and its only write is `r1`'s captured output — refuting the
claim that exactly one unknown-host diagnostic is written and no execution
occurs. -/
theorem C1_counterexample :
    (run_command demoUnet1 "badhost echo hi" demoFmt false false).events
      = [Event.captured "r1" "bash -c 'badhost echo hi'"]
    ∧ (run_command demoUnet1 "badhost echo hi" demoFmt false false).writes = ["hi\n"] := by
  decide

/-- C1 (amended): for every input line — in particular `badhost echo hi`
with `badhost` unknown — `host_cmd_split` returns only known host names
(an invalid leading token makes the target list default to all known
hosts), so the unknown-host rejection of cli.py:163-165 never fires and
captured `run_command` launches one execution per resolved target host
instead of writing a diagnostic. -/
theorem C1_theorem (u : Unet) (line execfmt : String) :
    (host_cmd_split u line).1.filter (fun x => !isHostTok u x) = []
    ∧ (run_command u line execfmt false false).events
        = (rcHosts u line).map (fun h => Event.captured h (rcShcmd u line execfmt h)) := by
  refine ⟨host_cmd_split_no_unknowns u line, ?_⟩
  rw [run_command_captured]
  simp [rcEvent]

/-- C2, counterexample: with known hosts `r1`, `r2`, the line `r1 r2` (every
token a valid host name) resolves to target `[r1]` with residual `r2`, not
to the maximal prefix `[r1, r2]` with empty residual that the claim states:
the `for`/`enumerate` loop of cli.py:98-100 leaves `i` at the last index
when it never breaks. -/
theorem C2_counterexample :
    host_cmd_split demoUnet2 "r1 r2" = (["r1"], "r2")
    ∧ host_cmd_split_claimed demoUnet2 "r1 r2" = (["r1", "r2"], "")
    ∧ host_cmd_split demoUnet2 "r1 r2" ≠ host_cmd_split_claimed demoUnet2 "r1 r2" := by
  decide

/-- C2 (amended): the target host list equals the maximal prefix of
whitespace-split tokens that are valid host names, except that when every
token of the line is a valid host name the prefix stops before the last
token, which becomes the residual command; if the resulting prefix is empty
(no valid leading host token — including the empty line and a line that is
exactly one valid host name) the target list is all known hosts, sorted;
the residual command is the space-join of the remaining tokens. -/
theorem C2_theorem (u : Unet) (cmd : String) :
    host_cmd_split u cmd = host_cmd_split_amended u cmd :=
  host_cmd_split_eq_amended u cmd

/-- C4, counterexample: `ENDMARKER` is `b"\x00END\x00"`, which is 5 bytes,
not the 6 bytes the claim states. -/
theorem C4_counterexample : ¬ ENDMARKER.length = 6 := by decide

/-- C4 (amended): the framing sentinel the server appends to each socket
response it transmits, and the byte sequence the client scans its receive
buffer for and strips before printing, are the same fixed 5-byte sequence
NUL 'E' 'N' 'D' NUL: the module constant `ENDMARKER`.  The client's suffix
test accepts exactly a buffer ending in `ENDMARKER` and stripping removes
exactly those 5 bytes.  On the server side, every byte ever transmitted on
a connection comes from sentinel writes — one `ENDMARKER` per leading
zero-output continue-line — because the dispatcher's `str` sink output
raises `TypeError` on the bytes-only writer before reaching the wire. -/
theorem C4_theorem :
    ENDMARKER = [0, 69, 78, 68, 0]
    ∧ ENDMARKER.length = 5
    ∧ (∀ payload : List Nat, bendswith (payload ++ ENDMARKER) ENDMARKER = true)
    ∧ (∀ payload : List Nat, clientStripMarker (payload ++ ENDMARKER) = payload)
    ∧ (∀ (enc : String → List Nat) (u : Unet) (lines : List String),
        serverBytes enc u lines
          = ((lines.takeWhile (zeroWriteCont u)).map (fun _ => ENDMARKER)).flatten) := by
  refine ⟨rfl, rfl, ?_, ?_, ?_⟩
  · intro payload
    have h2 : (payload ++ ENDMARKER).length - ENDMARKER.length = payload.length := by
      simp
    unfold bendswith
    rw [h2, List.drop_left]
    simp
  · intro payload
    have h2 : (payload ++ ENDMARKER).length - ENDMARKER.length = payload.length := by
      simp
    unfold clientStripMarker
    rw [h2, List.take_left]
  · intro enc u lines
    unfold serverBytes
    rw [serverRun_eq_sentinels, List.map_map]
    rfl

/-- C8: the PTY bridge `spawn` (cli.py:58-92) restores the terminal
discipline saved at entry on every exit path — the body's outcome `body`
ranges over both normal completion and a raised exception, and in both
cases running the termios trace from the entry settings ends back at the
entry settings — and when standard input is not a terminal no termios
operation is performed at all (the raw-mode switch and the restore are both
skipped). -/
theorem C8_theorem (isatty : Bool) (init : Nat) (body : Except String Unit)
    (rawOf : Nat → Nat) :
    applyTermEvents rawOf init (spawn isatty init body).2 = init
    ∧ (spawn isatty init body).1 = body
    ∧ (isatty = false → (spawn isatty init body).2 = [])
    ∧ (isatty = true → (spawn isatty init body).2
        = [TermEvent.tcgetattr, TermEvent.setraw, TermEvent.tcsetattr init]) := by
  cases isatty <;> simp [spawn, applyTermEvents]

/-- C8 witness: concrete instance with a tty and a body that raises: the
trace still ends with the restore of the saved settings and replaying it
returns the terminal to its entry state. -/
theorem C8_witness :
    applyTermEvents (fun n => n + 1) 7 (spawn true 7 (Except.error "boom")).2 = 7
    ∧ (spawn true 7 (Except.error "boom")).2
        = [TermEvent.tcgetattr, TermEvent.setraw, TermEvent.tcsetattr 7] :=
  ⟨(C8_theorem true 7 (Except.error "boom") (fun n => n + 1)).1,
   (C8_theorem true 7 (Except.error "boom") (fun n => n + 1)).2.2.2 rfl⟩

/-- C3, counterexample: two accepted lines for which the server does not
write exactly one framed response.  A `quit` line makes `doline` return
falsy and `cli_client_connected` returns at cli.py:345-347 before the
`writer.write(ENDMARKER)` of cli.py:349 — nothing is written.  A `hosts`
line makes `doline` attempt a `str` sink write on the bytes-only
`StreamWriter` passed at cli.py:345, which raises `TypeError`: nothing is
transmitted for the line and the handler dies before the sentinel.  By
contrast an empty line does get a (sentinel-only) framed response. -/
theorem C3_counterexample :
    serverRun demoUnet2 ["quit"] = []
    ∧ serverRun demoUnet2 ["hosts"] = []
    ∧ serverRun demoUnet2 [""] = [SWrite.endmark] := by
  decide

/-- C3 (amended): for every accepted line whose dispatch performs no sink
write and signals continue (the empty line, `cli`), the server transmits
exactly one framed response — an empty payload followed by the sentinel —
before reading the next line; every other accepted line ends the connection
with nothing transmitted for it: `quit`/`q` returns before the sentinel
write, a dispatch that raises kills the handler, and a dispatch that
produces sink output dies at its first write because `doline`'s `str`
chunks are passed to the bytes-only socket writer (`TypeError`), so
dispatcher output is never transmitted on this path — the connection's
write sequence is exactly one sentinel per leading zero-output
continue-line. -/
theorem C3_theorem (u : Unet) (lines : List String) :
    serverRun u lines
      = (lines.takeWhile (zeroWriteCont u)).map (fun _ => SWrite.endmark) :=
  serverRun_eq_sentinels u lines

/-- C5: a run-command (registered, or the default when the name is
unregistered) whose descriptor has the interactive flag, dispatched on a
non-interactive session (`notty=True`, the socket path), writes the single
inline error of cli.py:246/253, returns continue, and produces no execution
event: `run_command` and the host spawn are never reached. -/
theorem C5_theorem (u : Unet) (line0 cmd nline : String)
    (hp : pyParseStripped (pyStrip line0) = some (cmd, nline))
    (hq : cmd ∉ builtinNames)
    (hw : u.winCmds.lookup cmd = none)
    (hr : ((resolvedRun u cmd).map RunCmd.withPty).getD false = true) :
    doline u line0 true = ⟨[interactiveErr], [], Except.ok true⟩ := by
  simp only [builtinNames, List.mem_cons, List.not_mem_nil, or_false, not_or] at hq
  obtain ⟨h1, h2, h3, h4, h5, h6⟩ := hq
  simp only [doline, hp]
  rw [if_neg (by tauto : ¬(cmd = "q" ∨ cmd = "quit")), if_neg h3,
    if_neg (by tauto : ¬(cmd = "h" ∨ cmd = "hosts")), if_neg h6, hw]
  rw [if_neg (by simp)]
  cases hrc : u.runCmds.lookup cmd with
  | some rc =>
    have hpty : rc.withPty = true := by simpa [resolvedRun, hrc] using hr
    simp [hpty]
  | none =>
    cases hd : u.defaultRun with
    | some rc =>
      have hpty : rc.withPty = true := by simpa [resolvedRun, hrc, hd] using hr
      simp [hpty]
    | none => simp [resolvedRun, hrc, hd] at hr

/-- C5 witness: on a session whose registry maps `vtysh` to an
interactive-flagged run-command, dispatching `vtysh` with `notty=True`
yields exactly the inline error, continue, and no events. -/
theorem C5_witness :
    doline demoUnet4 "vtysh" true = ⟨[interactiveErr], [], Except.ok true⟩ :=
  C5_theorem demoUnet4 "vtysh" "vtysh" "" (by decide) (by decide) (by decide) (by decide)

/-- C6: in captured fan-out execution, one execution is launched per
resolved target host regardless of the per-host results (gather with
`return_exceptions=True` collects failures instead of cancelling siblings),
and when every result is a normal completion the sink receives, in target
order, one block per host in which the non-zero exit status diagnostic
(when the exit status is non-zero) immediately precedes that host's
captured output, with no exception raised. -/
theorem C6_theorem (u : Unet) (line execfmt : String) (onHost : Bool) :
    (run_command u line execfmt onHost false).events
      = (rcHosts u line).map (fun h => rcEvent onHost h (rcShcmd u line execfmt h))
    ∧ ((∀ h ∈ rcHosts u line, (rcResult u line execfmt onHost h).isOk = true) →
        (run_command u line execfmt onHost false).writes
          = ((rcHosts u line).map
              (fun h => okBlock (manyOf (rcHosts u line)) h
                (rcResult u line execfmt onHost h))).flatten
        ∧ (run_command u line execfmt onHost false).exc = none) := by
  constructor
  · rw [run_command_captured]
  · intro hok
    have hall : ∀ p ∈ (rcHosts u line).map
        (fun h => (h, rcResult u line execfmt onHost h)), p.2.isOk = true := by
      intro p hp
      obtain ⟨h, hh, rfl⟩ := List.mem_map.mp hp
      exact hok h hh
    rw [run_command_captured]
    rw [reportResults_ok _ _ hall]
    rw [List.map_map]
    exact ⟨rfl, rfl⟩

/-- C6 witness: both hosts of the demo session exit non-zero on
`r1 r2 false`; the writes are the two blocks (bracket, diagnostic, output,
bracket) in order and no exception is raised. -/
theorem C6_witness :
    (run_command demoUnet2 "r1 r2 false" demoFmt false false).writes
      = ((rcHosts demoUnet2 "r1 r2 false").map
          (fun h => okBlock (manyOf (rcHosts demoUnet2 "r1 r2 false")) h
            (rcResult demoUnet2 "r1 r2 false" demoFmt false h))).flatten
    ∧ (run_command demoUnet2 "r1 r2 false" demoFmt false false).exc = none :=
  (C6_theorem demoUnet2 "r1 r2 false" demoFmt false).2 (by decide)

/-- C7: in captured fan-out execution with normal per-host results, a
target set of more than one host makes the sink receive exactly one
begin/end bracket pair per host enclosing that host's (diagnostic and)
output, in target order; a single-host target set receives the host's
output with no bracket lines. -/
theorem C7_theorem (u : Unet) (line execfmt : String) (onHost : Bool)
    (hok : ∀ h ∈ rcHosts u line, (rcResult u line execfmt onHost h).isOk = true) :
    (1 < (rcHosts u line).length →
      (run_command u line execfmt onHost false).writes
        = ((rcHosts u line).map
            (fun h => hostBegin h ::
              (innerBlock u line execfmt onHost h ++ [hostEnd h]))).flatten)
    ∧ (∀ h0, rcHosts u line = [h0] →
        (run_command u line execfmt onHost false).writes
          = innerBlock u line execfmt onHost h0) := by
  have hall : ∀ p ∈ (rcHosts u line).map
      (fun h => (h, rcResult u line execfmt onHost h)), p.2.isOk = true := by
    intro p hp
    obtain ⟨h, hh, rfl⟩ := List.mem_map.mp hp
    exact hok h hh
  have hw : (run_command u line execfmt onHost false).writes
      = ((rcHosts u line).map
          (fun h => okBlock (manyOf (rcHosts u line)) h
            (rcResult u line execfmt onHost h))).flatten := by
    rw [run_command_captured, reportResults_ok _ _ hall, List.map_map]
    exact rfl
  constructor
  · intro hmany
    rw [hw]
    have hm : manyOf (rcHosts u line) = true := by
      simp [manyOf, hmany]
    congr 1
    apply List.map_congr_left
    intro h hh
    cases hr : rcResult u line execfmt onHost h with
    | ok rc o e => simp [okBlock, innerBlock, hm, hr]
    | exc m =>
      have := hok h hh
      rw [hr] at this
      simp [ExecResult.isOk] at this
  · intro h0 h0eq
    rw [hw, h0eq]
    have hm : manyOf [h0] = false := by simp [manyOf]
    cases hr : rcResult u line execfmt onHost h0 with
    | ok rc o e => simp [okBlock, innerBlock, hm, hr]
    | exc m =>
      have := hok h0 (by rw [h0eq]; exact List.mem_cons_self _ _)
      rw [hr] at this
      simp [ExecResult.isOk] at this

/-- C7 witness: the demo run `r1 r2 false` targets two hosts: the writes
are exactly one bracketed block per host enclosing that host's diagnostic
and output. -/
theorem C7_witness :
    (run_command demoUnet2 "r1 r2 false" demoFmt false false).writes
      = ((rcHosts demoUnet2 "r1 r2 false").map
          (fun h => hostBegin h ::
            (innerBlock demoUnet2 "r1 r2 false" demoFmt false h ++ [hostEnd h]))).flatten :=
  (C7_theorem demoUnet2 "r1 r2 false" demoFmt false (by decide)).1 (by decide)

/-- C9: a line whose first token is one of the builtin names `q`, `quit`,
`help`, `h`, `hosts`, `cli` is handled by the builtin branches of
cli.py:212-225 — `builtinEval`, defined from those lines only — for every
registry, including registries holding a run- or window-command under the
same name; no registry-driven execution event is produced (the only
possible event is the secondary-CLI window bootstrap of the `cli`
builtin). -/
theorem C9_theorem (u : Unet) (line0 cmd nline : String) (notty : Bool)
    (hp : pyParseStripped (pyStrip line0) = some (cmd, nline))
    (hb : cmd ∈ builtinNames) :
    doline u line0 notty = builtinEval u cmd
    ∧ ∀ e ∈ (doline u line0 notty).events, e = Event.secondaryCli := by
  have hmain : doline u line0 notty = builtinEval u cmd := by
    simp only [builtinNames, List.mem_cons, List.not_mem_nil, or_false] at hb
    simp only [doline, hp, builtinEval]
    rcases hb with h | h | h | h | h | h <;> subst h <;> simp
  refine ⟨hmain, ?_⟩
  rw [hmain]
  intro e he
  by_cases h1 : cmd = "q" ∨ cmd = "quit"
  · simp [builtinEval, h1] at he
  · by_cases h2 : cmd = "help"
    · cases hm : make_help_str u with
      | ok s => simp [builtinEval, h1, h2, hm] at he
      | error m => simp [builtinEval, h1, h2, hm] at he
    · by_cases h3 : cmd = "h" ∨ cmd = "hosts"
      · simp [builtinEval, h1, h2, h3] at he
      · by_cases h4 : cmd = "cli"
        · simp [builtinEval, h1, h2, h3, h4] at he
          exact he
        · simp [builtinEval, h1, h2, h3, h4] at he

/-- C9 witness: on a session whose run-command registry holds an entry
named `hosts`, the line `hosts` is handled by the builtin (host listing)
and produces no execution event. -/
theorem C9_witness :
    doline demoUnet5 "hosts" false = builtinEval demoUnet5 "hosts" :=
  (C9_theorem demoUnet5 "hosts" "hosts" "" false (by decide) (by decide)).1

/-- C10: a registered window-command dispatched with an empty residual
resolves an empty host list (no `*` expansion, no unknown-host error),
launches zero windows, writes nothing to the sink and returns continue. -/
theorem C10_theorem (u : Unet) (line0 cmd : String) (notty : Bool)
    (hp : pyParseStripped (pyStrip line0) = some (cmd, ""))
    (hq : cmd ∉ builtinNames)
    (hw : (u.winCmds.lookup cmd).isSome = true) :
    doline u line0 notty = ⟨[], [], Except.ok true⟩ := by
  simp only [builtinNames, List.mem_cons, List.not_mem_nil, or_false, not_or] at hq
  obtain ⟨h1, h2, h3, h4, h5, h6⟩ := hq
  simp only [doline, hp]
  rw [if_neg (by tauto : ¬(cmd = "q" ∨ cmd = "quit")), if_neg h3,
    if_neg (by tauto : ¬(cmd = "h" ∨ cmd = "hosts")), if_neg h6, if_pos hw]
  simp [dolineWindow, winLoop, show pySplit "" = [] from rfl]

/-- C10 witness: dispatching the registered window-command `wireshark` with
no arguments writes nothing, launches nothing, and returns continue. -/
theorem C10_witness :
    doline demoUnet6 "wireshark" true = ⟨[], [], Except.ok true⟩ :=
  C10_theorem demoUnet6 "wireshark" "wireshark" true (by decide) (by decide) (by decide)

/-- C4 witness: concrete payloads for the client-side suffix test and
strip, and a concrete zero-output continue-line (`cli`) socket session
whose transmitted bytes are exactly one sentinel. -/
theorem C4_witness :
    bendswith ([104] ++ ENDMARKER) ENDMARKER = true
    ∧ clientStripMarker ([104] ++ ENDMARKER) = [104]
    ∧ serverBytes demoEnc demoUnet2 ["cli"]
        = (((["cli"] : List String).takeWhile (zeroWriteCont demoUnet2)).map
            (fun _ => ENDMARKER)).flatten :=
  ⟨C4_theorem.2.2.1 [104], C4_theorem.2.2.2.1 [104],
   C4_theorem.2.2.2.2 demoEnc demoUnet2 ["cli"]⟩

end Munet
